import Mathlib

/-!
Verification of the cool-retro-term-webgl rendering core against its
natural-language specification.

The repository splits into the `cool-retro-term-renderer` library
(Rasterizer, Burn-In Accumulator, CRT Compositor, Grid Sync Connector)
and the `cool-retro-term-electron` application wrapper
(`renderer.ts`, `main.ts`, `preload.ts`).  The wrapper sources are
embedded directly; the renderer library is modelled from the
specification where its sources are not available, with each such
definition marked `Modelled from the spec:` in its doc comment.

Numeric quantities use `ℚ` throughout; greyscale images are functions
from rational pixel coordinates to a rational luminance value.
-/

namespace CRT

/-- Pixel coordinates on the composited surface. -/
abbrev Pix : Type := ℚ × ℚ

/-- A greyscale image: luminance as a function of pixel coordinates. -/
abbrev Image : Type := Pix → ℚ

/-- An RGB color with rational channels. -/
abbrev Color : Type := ℚ × ℚ × ℚ

/-- Effect configuration snapshot (spec section 6): nine normalized
intensities, a rasterization mode, and the base colors. -/
structure EffectConfig where
  fontColor : Color
  backgroundColor : Color
  screenCurvature : ℚ
  bloom : ℚ
  brightness : ℚ
  flickering : ℚ
  horizontalSync : ℚ
  jitter : ℚ
  staticNoise : ℚ
  glowingLine : ℚ
  burnIn : ℚ
  rasterizationMode : Nat
  rasterizationIntensity : ℚ
deriving DecidableEq

/-- Fractional part of a rational, used as the period-one wrap of the
noise and glow-line phase computations. -/
def fract (q : ℚ) : ℚ := q - ⌊q⌋

/-- Modelled from the spec: the renderer library's shader noise source is
not under `src/`; the spec only requires a pure pseudo-random function
of its seeds (section 4.3 step 7), so we model it as a fixed rational
hash. -/
def pnoise (x y : ℚ) : ℚ := fract ((x * 127 + y * 311 + x * y * 74) / 97)

/-- Modelled from the spec: barrel-distortion coordinate map of the
curvature warp (section 4.3 step 1), displacement scaled by the
`screenCurvature` intensity. -/
def barrel (c : ℚ) (p : Pix) : Pix :=
  (p.1 + c * p.1 * (p.1 ^ 2 + p.2 ^ 2), p.2 + c * p.2 * (p.1 ^ 2 + p.2 ^ 2))

/-- Modelled from the spec: pass 1, geometric warp by `screenCurvature`. -/
def warpPass (c : ℚ) (img : Image) : Image := fun p => img (barrel c p)

/-- Modelled from the spec: the rasterization-pattern mask (section 4.3
step 2); mode 0 (`none`) contributes no pattern, the other modes darken
by a periodic screen-space mask. -/
def rasterMask (mode : Nat) (p : Pix) : ℚ :=
  match mode with
  | 0 => 0
  | 1 => fract p.2
  | 2 => fract p.1 * fract p.2
  | _ => fract (p.1 + p.2)

/-- Modelled from the spec: pass 2, rasterization pattern overlay scaled
by `rasterizationIntensity`. -/
def rasterPass (mode : Nat) (i : ℚ) (img : Image) : Image :=
  fun p => img p * (1 - i * rasterMask mode p)

/-- Modelled from the spec: pass 3, chromatic aberration as a static
(non-time-varying) spatial channel offset.  The spec gives the pass no
dedicated EffectConfig parameter yet requires it to vanish in flat mode
(sections 4.3 and 8), so the offset is modelled as scaled by the
`screenCurvature` intensity. -/
def chromaPass (c : ℚ) (img : Image) : Image :=
  fun p => (img (p.1 - c / 100, p.2) + img (p.1, p.2) + img (p.1 + c / 100, p.2)) / 3

/-- Modelled from the spec: small blur kernel feeding the bloom pass. -/
def blur (img : Image) : Image :=
  fun p =>
    (img (p.1 - 1, p.2) + img (p.1 + 1, p.2) + img (p.1, p.2 - 1)
      + img (p.1, p.2 + 1) + img p) / 5

/-- Modelled from the spec: pass 4, bloom weighted by `bloom` combined
with the accumulation texture weighted by `burnIn`. -/
def bloomPass (b bi : ℚ) (accum img : Image) : Image :=
  fun p => img p + b * blur img p + bi * accum p

/-- Modelled from the spec: pass 5, per-scanline horizontal displacement
driven by a noise function of `time` and the `horizontalSync`
intensity. -/
def hsyncPass (i t : ℚ) (img : Image) : Image :=
  fun p => img (p.1 + i * (2 * pnoise t p.2 - 1), p.2)

/-- Modelled from the spec: pass 6, whole-frame positional offset driven
by `time` and the `jitter` intensity. -/
def jitterPass (i t : ℚ) (img : Image) : Image :=
  fun p => img (p.1 + i * (2 * pnoise t 1 - 1), p.2 + i * (2 * pnoise t 2 - 1))

/-- Modelled from the spec: pass 7, per-frame global brightness
modulation (`flickering`) and per-pixel luminance perturbation
(`staticNoise`), both seeded from `time`. -/
def flickerNoisePass (f n t : ℚ) (img : Image) : Image :=
  fun p => img p * (1 + f * (2 * pnoise t 3 - 1)) + n * pnoise (p.1 + t) p.2

/-- Modelled from the spec: pass 8, a traveling horizontal glow line
whose vertical position is a periodic function of `time`. -/
def glowLinePass (g t : ℚ) (img : Image) : Image :=
  fun p => img p + g * max 0 (1 - 10 * |p.2 - fract t|)

/-- Modelled from the spec: pass 9, brightness adjustment relative to the
neutral baseline plus a brightness-gated ambient background-color
lift. -/
def brightBgPass (b bg : ℚ) (img : Image) : Image :=
  fun p => img p * (1 + b) + b * bg

/-- Mean luminance of an RGB color, used for the background lift. -/
def lum (c : Color) : ℚ := (c.1 + c.2.1 + c.2.2) / 3

/-- Modelled from the spec: `Compositor.render` composes the final frame
through the ordered nine-pass shader chain of section 4.3, reading the
rasterized texture, the accumulation texture, the effect configuration
and the frame time. -/
def render (cfg : EffectConfig) (t : ℚ) (tex accum : Image) : Image :=
  brightBgPass cfg.brightness (lum cfg.backgroundColor)
    (glowLinePass cfg.glowingLine t
      (flickerNoisePass cfg.flickering cfg.staticNoise t
        (jitterPass cfg.jitter t
          (hsyncPass cfg.horizontalSync t
            (bloomPass cfg.bloom cfg.burnIn accum
              (chromaPass cfg.screenCurvature
                (rasterPass cfg.rasterizationMode cfg.rasterizationIntensity
                  (warpPass cfg.screenCurvature tex))))))))

/-- Modelled from the spec: the Burn-In Accumulator's decay curve is not
under `src/`; the spec fixes only that a higher burn-in intensity gives
a retention factor closer to 1 (slower decay), so it is modelled as the
monotone map `b ↦ b / (2 - b)` from `[0,1]` onto `[0,1]`. -/
def decay (b : ℚ) : ℚ := b / (2 - b)

/-- Modelled from the spec: the Accumulator's per-frame update blends the
current rasterized frame towards the accumulation buffer with retention
`decay b` (section 4.2), written here in lerp form. -/
def accumUpdate (b : ℚ) (accum current : Image) : Image :=
  fun p => current p + (accum p - current p) * decay b

/-- Modelled from the spec: the Compositor is a chain of stateless
transforms (section 9); the only conceivable hidden state of a render
session is how many frames it has produced, so a session step carries a
frame counter beside the pure `render`. -/
def renderStep (frames : Nat) (cfg : EffectConfig) (t : ℚ) (tex accum : Image) :
    Nat × Image :=
  (frames + 1, render cfg t tex accum)

/-- Modelled from the spec: the Rasterizer's observable sizing state —
current grid dimensions, fixed glyph cell pixel metrics, and the
dimensions of the allocated backing texture (section 4.1). -/
structure Rasterizer where
  cols : Int
  rows : Int
  cellW : Int
  cellH : Int
  texW : Int
  texH : Int
deriving DecidableEq

/-- Modelled from the spec: `updateGridSize(cols, rows)` reallocates the
backing texture and glyph layout to the new cell count and fails as a
no-op if either dimension is ≤ 0 (section 4.1). -/
def updateGridSize (c r : Int) (s : Rasterizer) : Rasterizer :=
  if c ≤ 0 ∨ r ≤ 0 then s
  else { s with cols := c, rows := r, texW := c * s.cellW, texH := r * s.cellH }

/-- Current (cols, rows) of the Rasterizer. -/
def getGridSize (s : Rasterizer) : Int × Int := (s.cols, s.rows)

/-- Modelled from the spec: a size recomputation derives (cols, rows)
from the viewport pixel dimensions and the glyph cell metrics and fires
the grid-size-change notification only when the computed dimensions
differ from the current ones (sections 4.1 and 6).  The returned list
holds the sizes reported to `onGridSizeChange` subscribers. -/
def updateSize (w h : Int) (s : Rasterizer) : Rasterizer × List (Int × Int) :=
  let c := w / s.cellW
  let r := h / s.cellH
  if c = s.cols ∧ r = s.rows then (s, [])
  else ({ s with cols := c, rows := r, texW := c * s.cellW, texH := r * s.cellH },
        [(c, r)])

/-- Raw input to EffectConfig construction: every field optional, so that
a missing field is representable (spec sections 6 and 7). -/
structure EffectConfigInput where
  fontColor : Option Color
  backgroundColor : Option Color
  screenCurvature : Option ℚ
  bloom : Option ℚ
  brightness : Option ℚ
  flickering : Option ℚ
  horizontalSync : Option ℚ
  jitter : Option ℚ
  staticNoise : Option ℚ
  glowingLine : Option ℚ
  burnIn : Option ℚ
  rasterizationMode : Option Nat
  rasterizationIntensity : Option ℚ

/-- Requires a field to be present. -/
def reqField {α : Type} (o : Option α) : Except String α :=
  match o with
  | some v => .ok v
  | none => .error "missing field"

/-- Requires a normalized intensity: present and within `[0,1]`. -/
def reqUnit (o : Option ℚ) : Except String ℚ :=
  match o with
  | none => .error "missing field"
  | some v => if 0 ≤ v ∧ v ≤ 1 then .ok v else .error "out of range"

/-- Requires a rasterization mode: present and one of the four
enumerated modes 0..3. -/
def reqMode (o : Option Nat) : Except String Nat :=
  match o with
  | none => .error "missing field"
  | some m => if m ≤ 3 then .ok m else .error "unknown rasterization mode"

/-- Modelled from the spec: EffectConfig construction validates every
field synchronously, rejecting a missing or out-of-range value with an
error and never wrapping it (sections 3, 6 and 7). -/
def mkEffectConfig (i : EffectConfigInput) : Except String EffectConfig :=
  match reqField i.fontColor with
  | .error e => .error e
  | .ok fc =>
  match reqField i.backgroundColor with
  | .error e => .error e
  | .ok bg =>
  match reqUnit i.screenCurvature with
  | .error e => .error e
  | .ok sc =>
  match reqUnit i.bloom with
  | .error e => .error e
  | .ok bl =>
  match reqUnit i.brightness with
  | .error e => .error e
  | .ok br =>
  match reqUnit i.flickering with
  | .error e => .error e
  | .ok fl =>
  match reqUnit i.horizontalSync with
  | .error e => .error e
  | .ok hs =>
  match reqUnit i.jitter with
  | .error e => .error e
  | .ok ji =>
  match reqUnit i.staticNoise with
  | .error e => .error e
  | .ok sn =>
  match reqUnit i.glowingLine with
  | .error e => .error e
  | .ok gl =>
  match reqUnit i.burnIn with
  | .error e => .error e
  | .ok bi =>
  match reqMode i.rasterizationMode with
  | .error e => .error e
  | .ok rm =>
  match reqUnit i.rasterizationIntensity with
  | .error e => .error e
  | .ok ri => .ok ⟨fc, bg, sc, bl, br, fl, hs, ji, sn, gl, bi, rm, ri⟩

/-- Observable operations of one render-loop iteration, in the order the
source performs them (`CRTTerminalApp.animate`, renderer.ts 157-169). -/
inductive Ev where
  | updateTime
  | renderStaticPass
  | scheduleNext
  | renderScene
deriving DecidableEq

/-- Externally visible calls made by the application wrapper towards the
XTerm buffer, the Connector and the PTY bridge. -/
inductive Action where
  | xtermResize (c r : Int)
  | connectorSync
  | ptyInit (c r : Int)
deriving DecidableEq

/-- Resources the application wrapper releases during `dispose`
(renderer.ts 247-281). -/
inductive Release where
  | animationFrame
  | windowResizeListener
  | cleanupFn (i : Nat)
  | connector
  | terminalText
  | terminalFrame
  | webglRenderer
  | domElement
  | xterm
deriving DecidableEq

/-- State of `CRTTerminalApp` (renderer.ts): the frame timestamp, the
pending `requestAnimationFrame` handle for the next tick, the window
resize-listener registration, the registered cleanup functions, the
Connector (present or nulled), the XTerm grid dimensions, disposal
flags of the owned sub-components, and the DOM attachment of the WebGL
canvas.  The sub-component flags model the spec's per-component
idempotent `dispose()` contract, the components' own sources being
outside `src/`. -/
structure AppState where
  time : ℚ
  animationFrameId : Option Nat
  nextFrameId : Nat
  resizeListenerAttached : Bool
  cleanupFunctions : List Nat
  connector : Bool
  xtermCols : Int
  xtermRows : Int
  terminalTextDisposed : Bool
  terminalFrameDisposed : Bool
  rendererDisposed : Bool
  domAttached : Bool
  xtermDisposed : Bool

/-- Line 159 of renderer.ts: `this.terminalText.updateTime(performance.now())`. -/
def updateTimeOp (now : ℚ) (s : AppState) : AppState × List Ev :=
  ({ s with time := now }, [Ev.updateTime])

/-- Line 162 of renderer.ts: `this.terminalText.renderStaticPass(this.renderer)`. -/
def renderStaticPassOp (s : AppState) : AppState × List Ev :=
  (s, [Ev.renderStaticPass])

/-- Line 165 of renderer.ts: `this.animationFrameId = requestAnimationFrame(this.animate)`. -/
def scheduleNextOp (s : AppState) : AppState × List Ev :=
  ({ s with animationFrameId := some s.nextFrameId, nextFrameId := s.nextFrameId + 1 },
   [Ev.scheduleNext])

/-- Line 168 of renderer.ts: `this.renderer.render(this.scene, this.camera)`. -/
def renderSceneOp (s : AppState) : AppState × List Ev :=
  (s, [Ev.renderScene])

/-- The render-loop body `CRTTerminalApp.animate` (renderer.ts 157-169),
translated statement by statement; the event list records the order of
the four operations. -/
def animate (now : ℚ) (s : AppState) : AppState × List Ev :=
  let r1 := updateTimeOp now s
  let r2 := renderStaticPassOp r1.1
  let r3 := scheduleNextOp r2.1
  let r4 := renderSceneOp r3.1
  (r4.1, r1.2 ++ r2.2 ++ r3.2 ++ r4.2)

/-- One step of the host's animation-frame scheduler: a tick fires only
when a frame request is pending, consuming the handle and running
`animate` (which schedules the next tick itself). -/
def rafStep (now : ℚ) (s : AppState) : AppState × List Ev :=
  match s.animationFrameId with
  | some _ => animate now { s with animationFrameId := none }
  | none => (s, [])

/-- The `onGridSizeChange` handler registered by the constructor
(renderer.ts 119-124): when the reported dimensions are positive and
the Connector exists, resize the XTerm buffer and then `sync()`. -/
def gridSizeChangeHandler (cols rows : Int) (s : AppState) : AppState × List Action :=
  if 0 < cols ∧ 0 < rows ∧ s.connector = true then
    ({ s with xtermCols := cols, xtermRows := rows },
     [Action.xtermResize cols rows, Action.connectorSync])
  else (s, [])

/-- `CRTTerminalApp.dispose` (renderer.ts 247-281).  The source's nine
blocks each act on a distinct part of the state no other block reads,
so the resulting state is written directly; the released-resource list
keeps each block's guard: host-level deregistrations
(`cancelAnimationFrame`, `removeEventListener`, DOM removal) release a
resource only while it is held, matching the guards in the source and
DOM semantics, and the owned sub-components' `dispose()` calls — made
unconditionally in the source — release their resources at most once
per the spec's idempotent per-component dispose contract. -/
def dispose (s : AppState) : AppState × List Release :=
  ({ s with
      animationFrameId := none
      resizeListenerAttached := false
      cleanupFunctions := []
      connector := false
      terminalTextDisposed := true
      terminalFrameDisposed := true
      rendererDisposed := true
      domAttached := false
      xtermDisposed := true },
   (match s.animationFrameId with
      | some _ => [Release.animationFrame]
      | none => [])
    ++ (if s.resizeListenerAttached then [Release.windowResizeListener] else [])
    ++ s.cleanupFunctions.map Release.cleanupFn
    ++ (if s.connector then [Release.connector] else [])
    ++ (if s.terminalTextDisposed then [] else [Release.terminalText])
    ++ (if s.terminalFrameDisposed then [] else [Release.terminalFrame])
    ++ (if s.rendererDisposed then [] else [Release.webglRenderer])
    ++ (if s.domAttached then [Release.domElement] else [])
    ++ (if s.xtermDisposed then [] else [Release.xterm]))

/-- Dimension selection of `CRTTerminalApp.init` (renderer.ts 176-178):
each grid dimension is kept when positive and otherwise replaced by its
fallback, 80 columns or 24 rows. -/
def initDims (g : Int × Int) : Int × Int :=
  (if 0 < g.1 then g.1 else 80, if 0 < g.2 then g.2 else 24)

/-- External calls of `CRTTerminalApp.init` (renderer.ts 180-184): resize
the XTerm buffer to the selected dimensions, then initialize the PTY
with the same dimensions. -/
def initOps (g : Int × Int) : List Action :=
  [Action.xtermResize (initDims g).1 (initDims g).2,
   Action.ptyInit (initDims g).1 (initDims g).2]

/-- Per-pass no-op lemma: the curvature warp at intensity 0 is the
identity. -/
theorem warpPass_zero (img : Image) : warpPass 0 img = img := by
  funext p
  simp [warpPass, barrel]

/-- Per-pass no-op lemma: the rasterization overlay at intensity 0 is the
identity, whatever the mode. -/
theorem rasterPass_zero (mode : Nat) (img : Image) : rasterPass mode 0 img = img := by
  funext p
  simp [rasterPass]

/-- Per-pass no-op lemma: rasterization mode `none` is the identity at
any intensity. -/
theorem rasterPass_modeNone (i : ℚ) (img : Image) : rasterPass 0 i img = img := by
  funext p
  simp [rasterPass, rasterMask]

/-- Per-pass no-op lemma: chromatic aberration with zero offset is the
identity. -/
theorem chromaPass_zero (img : Image) : chromaPass 0 img = img := by
  funext p
  show (img (p.1 - 0 / 100, p.2) + img (p.1, p.2) + img (p.1 + 0 / 100, p.2)) / 3 = img p
  rw [show (0 : ℚ) / 100 = 0 by norm_num, sub_zero, add_zero]
  ring_nf

/-- Per-pass no-op lemma: bloom and burn-in blending at intensity 0 is
the identity. -/
theorem bloomPass_zero (accum img : Image) : bloomPass 0 0 accum img = img := by
  funext p
  simp [bloomPass]

/-- Per-pass no-op lemma: horizontal-sync displacement at intensity 0 is
the identity. -/
theorem hsyncPass_zero (t : ℚ) (img : Image) : hsyncPass 0 t img = img := by
  funext p
  simp [hsyncPass]

/-- Per-pass no-op lemma: jitter at intensity 0 is the identity. -/
theorem jitterPass_zero (t : ℚ) (img : Image) : jitterPass 0 t img = img := by
  funext p
  simp [jitterPass]

/-- Per-pass no-op lemma: flicker and static noise at intensity 0 are the
identity. -/
theorem flickerNoisePass_zero (t : ℚ) (img : Image) : flickerNoisePass 0 0 t img = img := by
  funext p
  simp [flickerNoisePass]

/-- Per-pass no-op lemma: the glow line at intensity 0 is the identity. -/
theorem glowLinePass_zero (t : ℚ) (img : Image) : glowLinePass 0 t img = img := by
  funext p
  simp [glowLinePass]

/-- Per-pass no-op lemma: brightness adjustment and background lift at
intensity 0 are the identity. -/
theorem brightBgPass_zero (bg : ℚ) (img : Image) : brightBgPass 0 bg img = img := by
  funext p
  simp [brightBgPass]

/-- C1: in every render-loop iteration the operations occur in this
exact order: the frame time is advanced, then the Rasterizer's static
pass is rendered, then the next tick is scheduled, and only then is the
main scene rendered; in particular the next tick is scheduled before
the current frame's main-scene render. -/
theorem animate_order (now : ℚ) (s : AppState) :
    (animate now s).2 = [Ev.updateTime, Ev.renderStaticPass, Ev.scheduleNext, Ev.renderScene]
    ∧ (animate now s).1.time = now
    ∧ (animate now s).1.animationFrameId = some s.nextFrameId :=
  ⟨rfl, rfl, rfl⟩

/-- C2: whenever the Rasterizer reports a grid-dimension change with
positive cols and rows (and the Connector exists, which holds for the
whole undisposed life of the app), the handler first resizes the XTerm
buffer to the new dimensions and then calls `sync()`, in that order. -/
theorem gridSizeChange_resize_then_sync (cols rows : Int) (s : AppState)
    (hc : 0 < cols) (hr : 0 < rows) (hconn : s.connector = true) :
    (gridSizeChangeHandler cols rows s).2 =
      [Action.xtermResize cols rows, Action.connectorSync]
    ∧ (gridSizeChangeHandler cols rows s).1.xtermCols = cols
    ∧ (gridSizeChangeHandler cols rows s).1.xtermRows = rows := by
  rw [gridSizeChangeHandler, if_pos ⟨hc, hr, hconn⟩]
  exact ⟨rfl, rfl, rfl⟩

/-- Witness for C2 at a concrete positive grid size and live state. -/
theorem gridSizeChange_resize_then_sync_witness :
    (0 : Int) < 80 ∧ (0 : Int) < 24 ∧
    ((gridSizeChangeHandler 80 24
        ⟨0, none, 0, true, [], true, 10, 5, false, false, false, true, false⟩).2 =
      [Action.xtermResize 80 24, Action.connectorSync]
    ∧ (gridSizeChangeHandler 80 24
        ⟨0, none, 0, true, [], true, 10, 5, false, false, false, true, false⟩).1.xtermCols = 80
    ∧ (gridSizeChangeHandler 80 24
        ⟨0, none, 0, true, [], true, 10, 5, false, false, false, true, false⟩).1.xtermRows = 24) :=
  ⟨by decide, by decide,
   gridSizeChange_resize_then_sync 80 24 _ (by decide) (by decide) rfl⟩

/-- C4: the Accumulator's per-frame update equals the exponential-decay
blend `accum * decay(b) + current * (1 - decay(b))`, and the decay
(retention) factor is strictly monotone in the burn-in intensity on
`[0,1]`: higher burn-in means longer-lived trails. -/
theorem accumUpdate_decay_blend (b b₁ b₂ : ℚ) (accum current : Image) (p : Pix)
    (h₀ : 0 ≤ b₁) (h₁ : b₁ < b₂) (h₂ : b₂ ≤ 1) :
    accumUpdate b accum current p = accum p * decay b + current p * (1 - decay b)
    ∧ decay b₁ < decay b₂ := by
  constructor
  · rw [accumUpdate]; ring
  · have d1 : (0 : ℚ) < 2 - b₁ := by linarith
    have d2 : (0 : ℚ) < 2 - b₂ := by linarith
    rw [decay, decay, div_lt_div_iff₀ d1 d2]
    nlinarith

/-- Witness for C4 at burn-in 1/2 with intensities 0 < 1 compared. -/
theorem accumUpdate_decay_blend_witness :
    (0 : ℚ) ≤ 0 ∧ (0 : ℚ) < 1 ∧ (1 : ℚ) ≤ 1 ∧
    (accumUpdate (1/2) (fun _ => 1) (fun _ => 0) (0, 0) =
        (fun _ => (1 : ℚ)) ((0 : ℚ), (0 : ℚ)) * decay (1/2)
          + (fun _ => (0 : ℚ)) ((0 : ℚ), (0 : ℚ)) * (1 - decay (1/2))
      ∧ decay 0 < decay 1) :=
  ⟨le_refl 0, by norm_num, le_refl 1,
   accumUpdate_decay_blend (1/2) 0 1 (fun _ => 1) (fun _ => 0) (0, 0)
     (le_refl 0) (by norm_num) (le_refl 1)⟩

/-- C5: for a fixed configuration, time and input textures, the
compositor's output is identical on repeated calls regardless of any
session history (frame counter); there is no hidden random state. -/
theorem render_deterministic (n₁ n₂ : Nat) (cfg : EffectConfig) (t : ℚ)
    (tex accum : Image) :
    (renderStep n₁ cfg t tex accum).2 = (renderStep n₂ cfg t tex accum).2 :=
  rfl

/-- C7: `updateGridSize` with a non-positive dimension is a no-op — the
whole previous Rasterizer state, its grid size included, is kept. -/
theorem updateGridSize_degenerate_noop (c r : Int) (s : Rasterizer)
    (h : c ≤ 0 ∨ r ≤ 0) :
    updateGridSize c r s = s ∧ getGridSize (updateGridSize c r s) = getGridSize s := by
  rw [updateGridSize, if_pos h]
  exact ⟨rfl, rfl⟩

/-- Witness for C7: `updateGridSize (0, 24)` leaves a concrete state
unchanged. -/
theorem updateGridSize_degenerate_noop_witness :
    ((0 : Int) ≤ 0 ∨ (24 : Int) ≤ 0) ∧
    (updateGridSize 0 24 ⟨80, 24, 8, 16, 640, 384⟩ = ⟨80, 24, 8, 16, 640, 384⟩
      ∧ getGridSize (updateGridSize 0 24 ⟨80, 24, 8, 16, 640, 384⟩)
          = getGridSize ⟨80, 24, 8, 16, 640, 384⟩) :=
  ⟨Or.inl (by decide),
   updateGridSize_degenerate_noop 0 24 ⟨80, 24, 8, 16, 640, 384⟩ (Or.inl (by decide))⟩

/-- Counterexample to C10 as stated: for the computed grid size (0, 50)
— which has a non-positive dimension — `init` selects (80, 50), not the
claimed fallback pair (80, 24). -/
theorem init_fallback_counterexample :
    initDims (0, 50) = ((80 : Int), (50 : Int))
    ∧ initDims (0, 50) ≠ ((80 : Int), (24 : Int)) := by
  constructor
  · decide
  · decide

/-- C10 (amended): when the computed grid size has a non-positive
dimension, each non-positive dimension is independently replaced by its
fallback (80 columns, 24 rows) while a positive dimension is kept, and
the PTY is always initialized with strictly positive dimensions. -/
theorem init_fallback_amended (g : Int × Int) (h : g.1 ≤ 0 ∨ g.2 ≤ 0) :
    0 < (initDims g).1 ∧ 0 < (initDims g).2
    ∧ (g.1 ≤ 0 → (initDims g).1 = 80) ∧ (0 < g.1 → (initDims g).1 = g.1)
    ∧ (g.2 ≤ 0 → (initDims g).2 = 24) ∧ (0 < g.2 → (initDims g).2 = g.2)
    ∧ Action.ptyInit (initDims g).1 (initDims g).2 ∈ initOps g := by
  refine ⟨?_, ?_, ?_, ?_, ?_, ?_, ?_⟩
  · dsimp [initDims]; split <;> omega
  · dsimp [initDims]; split <;> omega
  · intro hle; dsimp [initDims]; rw [if_neg (by omega)]
  · intro hpos; dsimp [initDims]; rw [if_pos hpos]
  · intro hle; dsimp [initDims]; rw [if_neg (by omega)]
  · intro hpos; dsimp [initDims]; rw [if_pos hpos]
  · simp [initOps]

/-- Witness for C10 (amended) at the degenerate computed size (0, 50). -/
theorem init_fallback_amended_witness :
    ((0 : Int) ≤ 0 ∨ (50 : Int) ≤ 0) ∧
    (0 < (initDims (0, 50)).1 ∧ 0 < (initDims (0, 50)).2
      ∧ ((0 : Int) ≤ 0 → (initDims (0, 50)).1 = 80)
      ∧ ((0 : Int) < 0 → (initDims (0, 50)).1 = 0)
      ∧ ((50 : Int) ≤ 0 → (initDims (0, 50)).2 = 24)
      ∧ ((0 : Int) < 50 → (initDims (0, 50)).2 = 50)
      ∧ Action.ptyInit (initDims (0, 50)).1 (initDims (0, 50)).2 ∈ initOps (0, 50)) :=
  ⟨Or.inl (by decide), init_fallback_amended (0, 50) (Or.inl (by decide))⟩

/-- C3: with every intensity at 0 and rasterization mode `none`, the
composited output is pixel-identical to the unwarped direct
presentation of the rasterized grid texture, and each pass at intensity
0 (or mode `none`) is bit-identical to skipping that pass. -/
theorem render_flat_identity (cfg : EffectConfig) (t : ℚ) (tex accum : Image)
    (hsc : cfg.screenCurvature = 0) (hbl : cfg.bloom = 0) (hbr : cfg.brightness = 0)
    (hfl : cfg.flickering = 0) (hhs : cfg.horizontalSync = 0) (hji : cfg.jitter = 0)
    (hsn : cfg.staticNoise = 0) (hgl : cfg.glowingLine = 0) (hbi : cfg.burnIn = 0)
    (hri : cfg.rasterizationIntensity = 0) (hrm : cfg.rasterizationMode = 0) :
    render cfg t tex accum = tex
    ∧ (∀ img : Image, warpPass 0 img = img)
    ∧ (∀ (mode : Nat) (img : Image), rasterPass mode 0 img = img)
    ∧ (∀ (i : ℚ) (img : Image), rasterPass 0 i img = img)
    ∧ (∀ img : Image, chromaPass 0 img = img)
    ∧ (∀ img : Image, bloomPass 0 0 accum img = img)
    ∧ (∀ img : Image, hsyncPass 0 t img = img)
    ∧ (∀ img : Image, jitterPass 0 t img = img)
    ∧ (∀ img : Image, flickerNoisePass 0 0 t img = img)
    ∧ (∀ img : Image, glowLinePass 0 t img = img)
    ∧ (∀ (bg : ℚ) (img : Image), brightBgPass 0 bg img = img) := by
  refine ⟨?_, warpPass_zero, rasterPass_zero, rasterPass_modeNone, chromaPass_zero,
    bloomPass_zero accum, hsyncPass_zero t, jitterPass_zero t,
    flickerNoisePass_zero t, glowLinePass_zero t, brightBgPass_zero⟩
  rw [render, hsc, hbl, hbr, hfl, hhs, hji, hsn, hgl, hbi, hri, hrm]
  rw [warpPass_zero, rasterPass_zero, chromaPass_zero, bloomPass_zero,
    hsyncPass_zero, jitterPass_zero, flickerNoisePass_zero, glowLinePass_zero,
    brightBgPass_zero]

/-- Witness for C3: the flat configuration presents a concrete texture
unchanged. -/
theorem render_flat_identity_witness :
    render ⟨(1, 1, 1), (0, 0, 0), 0, 0, 0, 0, 0, 0, 0, 0, 0, 0, 0⟩ 0
        (fun _ => 1) (fun _ => 0) = fun _ => 1 :=
  (render_flat_identity ⟨(1, 1, 1), (0, 0, 0), 0, 0, 0, 0, 0, 0, 0, 0, 0, 0, 0⟩ 0
      (fun _ => 1) (fun _ => 0) rfl rfl rfl rfl rfl rfl rfl rfl rfl rfl rfl).1

/-- A size recomputation keeps the glyph cell metrics and leaves the
stored grid dimensions equal to the computed ones. -/
theorem updateSize_state (w h : Int) (s : Rasterizer) :
    (updateSize w h s).1.cols = w / s.cellW ∧ (updateSize w h s).1.rows = h / s.cellH
    ∧ (updateSize w h s).1.cellW = s.cellW ∧ (updateSize w h s).1.cellH = s.cellH := by
  rw [updateSize]
  split
  · next hcond => exact ⟨hcond.1.symm, hcond.2.symm, rfl, rfl⟩
  · exact ⟨rfl, rfl, rfl, rfl⟩

/-- A size recomputation whose computed dimensions match the stored ones
changes nothing and notifies nobody. -/
theorem updateSize_same (w h : Int) (s : Rasterizer)
    (hc : w / s.cellW = s.cols) (hr : h / s.cellH = s.rows) :
    updateSize w h s = (s, []) := by
  rw [updateSize, if_pos ⟨hc, hr⟩]

/-- A single size recomputation fires at most one notification. -/
theorem updateSize_len (w h : Int) (s : Rasterizer) :
    (updateSize w h s).2.length ≤ 1 := by
  rw [updateSize]
  split
  · exact Nat.zero_le 1
  · exact le_refl 1

/-- C8: two consecutive size recomputations whose computed (cols, rows)
agree fire the grid-size-change notification at most once — the second
recomputation to an unchanged size notifies nobody. -/
theorem gridSize_notify_once (w h w2 h2 : Int) (s : Rasterizer)
    (hw : w2 / s.cellW = w / s.cellW) (hh : h2 / s.cellH = h / s.cellH) :
    (updateSize w2 h2 (updateSize w h s).1).2 = []
    ∧ (updateSize w h s).2.length
        + (updateSize w2 h2 (updateSize w h s).1).2.length ≤ 1 := by
  have h1 := updateSize_state w h s
  have hsame : updateSize w2 h2 (updateSize w h s).1 = ((updateSize w h s).1, []) :=
    updateSize_same w2 h2 (updateSize w h s).1
      (by rw [h1.2.2.1, hw]; exact h1.1.symm)
      (by rw [h1.2.2.2, hh]; exact h1.2.1.symm)
  refine ⟨by rw [hsame], ?_⟩
  rw [hsame]
  simpa using updateSize_len w h s

/-- Witness for C8: a resize from a blank state fires once, and the
repeat recomputation to the same grid fires nothing. -/
theorem gridSize_notify_once_witness :
    ((804 : Int) / (8 : Int) = (800 : Int) / (8 : Int))
    ∧ ((605 : Int) / (16 : Int) = (600 : Int) / (16 : Int))
    ∧ ((updateSize 804 605 (updateSize 800 600 ⟨0, 0, 8, 16, 0, 0⟩).1).2 = []
      ∧ (updateSize 800 600 (⟨0, 0, 8, 16, 0, 0⟩ : Rasterizer)).2.length
          + (updateSize 804 605 (updateSize 800 600 ⟨0, 0, 8, 16, 0, 0⟩).1).2.length ≤ 1) :=
  ⟨by decide, by decide,
   gridSize_notify_once 800 600 804 605 ⟨0, 0, 8, 16, 0, 0⟩ (by decide) (by decide)⟩

/-- C9: `dispose` is idempotent — the second call releases nothing at
all and leaves the state fixed — and after the first `dispose` no
animation frame is pending, so the scheduler fires no further tick. -/
theorem dispose_idempotent (s : AppState) :
    (dispose (dispose s).1).2 = []
    ∧ (dispose (dispose s).1).1 = (dispose s).1
    ∧ (dispose s).1.animationFrameId = none
    ∧ ∀ now, rafStep now (dispose s).1 = ((dispose s).1, []) :=
  ⟨rfl, rfl, rfl, fun _ => rfl⟩

/-- Characterization of required-field validation. -/
theorem reqField_ok {α : Type} (o : Option α) (v : α) :
    reqField o = .ok v ↔ o = some v := by
  cases o <;> simp [reqField]

/-- Characterization of intensity validation: present and in `[0,1]`,
accepted unmodified. -/
theorem reqUnit_ok (o : Option ℚ) (v : ℚ) :
    reqUnit o = .ok v ↔ o = some v ∧ 0 ≤ v ∧ v ≤ 1 := by
  cases o with
  | none => simp [reqUnit]
  | some a =>
    by_cases h : 0 ≤ a ∧ a ≤ 1
    · rw [reqUnit, if_pos h]
      constructor
      · intro hv
        injection hv with hv
        exact ⟨by rw [hv], by rw [← hv]; exact h.1, by rw [← hv]; exact h.2⟩
      · rintro ⟨hv, -, -⟩
        injection hv with hv
        rw [hv]
    · rw [reqUnit, if_neg h]
      constructor
      · intro hv; exact absurd hv (by simp)
      · rintro ⟨hv, h0, h1⟩
        injection hv with hv
        exact absurd ⟨hv ▸ h0, hv ▸ h1⟩ h

/-- Characterization of rasterization-mode validation: present and one
of the enumerated modes, accepted unmodified. -/
theorem reqMode_ok (o : Option Nat) (m : Nat) :
    reqMode o = .ok m ↔ o = some m ∧ m ≤ 3 := by
  cases o with
  | none => simp [reqMode]
  | some a =>
    by_cases h : a ≤ 3
    · rw [reqMode, if_pos h]
      constructor
      · intro hv
        injection hv with hv
        exact ⟨by rw [hv], hv ▸ h⟩
      · rintro ⟨hv, -⟩
        injection hv with hv
        rw [hv]
    · rw [reqMode, if_neg h]
      constructor
      · intro hv; exact absurd hv (by simp)
      · rintro ⟨hv, hm⟩
        injection hv with hv
        exact absurd (hv ▸ hm) h

/-- Full characterization of EffectConfig construction: it succeeds with
`cfg` exactly when every input field is present, every intensity is in
`[0,1]`, the mode is one of 0..3, and every field of `cfg` is the input
value unchanged. -/
theorem mkEffectConfig_ok_iff (i : EffectConfigInput) (cfg : EffectConfig) :
    mkEffectConfig i = .ok cfg ↔
      (i.fontColor = some cfg.fontColor
        ∧ i.backgroundColor = some cfg.backgroundColor
        ∧ (i.screenCurvature = some cfg.screenCurvature
            ∧ 0 ≤ cfg.screenCurvature ∧ cfg.screenCurvature ≤ 1)
        ∧ (i.bloom = some cfg.bloom ∧ 0 ≤ cfg.bloom ∧ cfg.bloom ≤ 1)
        ∧ (i.brightness = some cfg.brightness ∧ 0 ≤ cfg.brightness ∧ cfg.brightness ≤ 1)
        ∧ (i.flickering = some cfg.flickering ∧ 0 ≤ cfg.flickering ∧ cfg.flickering ≤ 1)
        ∧ (i.horizontalSync = some cfg.horizontalSync
            ∧ 0 ≤ cfg.horizontalSync ∧ cfg.horizontalSync ≤ 1)
        ∧ (i.jitter = some cfg.jitter ∧ 0 ≤ cfg.jitter ∧ cfg.jitter ≤ 1)
        ∧ (i.staticNoise = some cfg.staticNoise ∧ 0 ≤ cfg.staticNoise ∧ cfg.staticNoise ≤ 1)
        ∧ (i.glowingLine = some cfg.glowingLine ∧ 0 ≤ cfg.glowingLine ∧ cfg.glowingLine ≤ 1)
        ∧ (i.burnIn = some cfg.burnIn ∧ 0 ≤ cfg.burnIn ∧ cfg.burnIn ≤ 1)
        ∧ (i.rasterizationMode = some cfg.rasterizationMode ∧ cfg.rasterizationMode ≤ 3)
        ∧ (i.rasterizationIntensity = some cfg.rasterizationIntensity
            ∧ 0 ≤ cfg.rasterizationIntensity ∧ cfg.rasterizationIntensity ≤ 1)) := by
  constructor
  · intro h
    rw [mkEffectConfig] at h
    iterate 13 (split at h <;> try simp at h)
    obtain ⟨cfg, rfl⟩ : ∃ c, c = cfg := ⟨cfg, rfl⟩
    subst h
    simp_all [reqField_ok, reqUnit_ok, reqMode_ok]
  · rintro ⟨h1, h2, h3, h4, h5, h6, h7, h8, h9, h10, h11, h12, h13⟩
    rw [mkEffectConfig]
    rw [show reqField i.fontColor = .ok cfg.fontColor from (reqField_ok _ _).mpr h1]
    rw [show reqField i.backgroundColor = .ok cfg.backgroundColor from
      (reqField_ok _ _).mpr h2]
    rw [show reqUnit i.screenCurvature = .ok cfg.screenCurvature from
      (reqUnit_ok _ _).mpr h3]
    rw [show reqUnit i.bloom = .ok cfg.bloom from (reqUnit_ok _ _).mpr h4]
    rw [show reqUnit i.brightness = .ok cfg.brightness from (reqUnit_ok _ _).mpr h5]
    rw [show reqUnit i.flickering = .ok cfg.flickering from (reqUnit_ok _ _).mpr h6]
    rw [show reqUnit i.horizontalSync = .ok cfg.horizontalSync from
      (reqUnit_ok _ _).mpr h7]
    rw [show reqUnit i.jitter = .ok cfg.jitter from (reqUnit_ok _ _).mpr h8]
    rw [show reqUnit i.staticNoise = .ok cfg.staticNoise from (reqUnit_ok _ _).mpr h9]
    rw [show reqUnit i.glowingLine = .ok cfg.glowingLine from (reqUnit_ok _ _).mpr h10]
    rw [show reqUnit i.burnIn = .ok cfg.burnIn from (reqUnit_ok _ _).mpr h11]
    rw [show reqMode i.rasterizationMode = .ok cfg.rasterizationMode from
      (reqMode_ok _ _).mpr h12]
    rw [show reqUnit i.rasterizationIntensity = .ok cfg.rasterizationIntensity from
      (reqUnit_ok _ _).mpr h13]

/-- C6: EffectConfig construction succeeds exactly when every field is
present and within its documented range (intensities in `[0,1]`, mode
one of 0..3) — any out-of-range or missing field yields a synchronous
error — and accepted values are taken over unchanged, never wrapped or
clamped. -/
theorem effectConfig_validation (i : EffectConfigInput) :
    ((∃ cfg, mkEffectConfig i = .ok cfg) ↔
      ((∃ c, i.fontColor = some c) ∧ (∃ c, i.backgroundColor = some c)
        ∧ (∃ v, i.screenCurvature = some v ∧ 0 ≤ v ∧ v ≤ 1)
        ∧ (∃ v, i.bloom = some v ∧ 0 ≤ v ∧ v ≤ 1)
        ∧ (∃ v, i.brightness = some v ∧ 0 ≤ v ∧ v ≤ 1)
        ∧ (∃ v, i.flickering = some v ∧ 0 ≤ v ∧ v ≤ 1)
        ∧ (∃ v, i.horizontalSync = some v ∧ 0 ≤ v ∧ v ≤ 1)
        ∧ (∃ v, i.jitter = some v ∧ 0 ≤ v ∧ v ≤ 1)
        ∧ (∃ v, i.staticNoise = some v ∧ 0 ≤ v ∧ v ≤ 1)
        ∧ (∃ v, i.glowingLine = some v ∧ 0 ≤ v ∧ v ≤ 1)
        ∧ (∃ v, i.burnIn = some v ∧ 0 ≤ v ∧ v ≤ 1)
        ∧ (∃ m, i.rasterizationMode = some m ∧ m ≤ 3)
        ∧ (∃ v, i.rasterizationIntensity = some v ∧ 0 ≤ v ∧ v ≤ 1)))
    ∧ ∀ cfg, mkEffectConfig i = .ok cfg →
        (i.fontColor = some cfg.fontColor
          ∧ i.backgroundColor = some cfg.backgroundColor
          ∧ i.screenCurvature = some cfg.screenCurvature
          ∧ i.bloom = some cfg.bloom
          ∧ i.brightness = some cfg.brightness
          ∧ i.flickering = some cfg.flickering
          ∧ i.horizontalSync = some cfg.horizontalSync
          ∧ i.jitter = some cfg.jitter
          ∧ i.staticNoise = some cfg.staticNoise
          ∧ i.glowingLine = some cfg.glowingLine
          ∧ i.burnIn = some cfg.burnIn
          ∧ i.rasterizationMode = some cfg.rasterizationMode
          ∧ i.rasterizationIntensity = some cfg.rasterizationIntensity)
        ∧ (0 ≤ cfg.screenCurvature ∧ cfg.screenCurvature ≤ 1)
        ∧ (0 ≤ cfg.bloom ∧ cfg.bloom ≤ 1)
        ∧ (0 ≤ cfg.brightness ∧ cfg.brightness ≤ 1)
        ∧ (0 ≤ cfg.flickering ∧ cfg.flickering ≤ 1)
        ∧ (0 ≤ cfg.horizontalSync ∧ cfg.horizontalSync ≤ 1)
        ∧ (0 ≤ cfg.jitter ∧ cfg.jitter ≤ 1)
        ∧ (0 ≤ cfg.staticNoise ∧ cfg.staticNoise ≤ 1)
        ∧ (0 ≤ cfg.glowingLine ∧ cfg.glowingLine ≤ 1)
        ∧ (0 ≤ cfg.burnIn ∧ cfg.burnIn ≤ 1)
        ∧ cfg.rasterizationMode ≤ 3
        ∧ (0 ≤ cfg.rasterizationIntensity ∧ cfg.rasterizationIntensity ≤ 1) := by
  constructor
  · constructor
    · rintro ⟨cfg, hok⟩
      obtain ⟨h1, h2, h3, h4, h5, h6, h7, h8, h9, h10, h11, h12, h13⟩ :=
        (mkEffectConfig_ok_iff i cfg).mp hok
      exact ⟨⟨_, h1⟩, ⟨_, h2⟩, ⟨_, h3.1, h3.2⟩, ⟨_, h4.1, h4.2⟩, ⟨_, h5.1, h5.2⟩,
        ⟨_, h6.1, h6.2⟩, ⟨_, h7.1, h7.2⟩, ⟨_, h8.1, h8.2⟩, ⟨_, h9.1, h9.2⟩,
        ⟨_, h10.1, h10.2⟩, ⟨_, h11.1, h11.2⟩, ⟨_, h12.1, h12.2⟩, ⟨_, h13.1, h13.2⟩⟩
    · rintro ⟨⟨c1, h1⟩, ⟨c2, h2⟩, ⟨v3, h3, hr3⟩, ⟨v4, h4, hr4⟩, ⟨v5, h5, hr5⟩,
        ⟨v6, h6, hr6⟩, ⟨v7, h7, hr7⟩, ⟨v8, h8, hr8⟩, ⟨v9, h9, hr9⟩,
        ⟨v10, h10, hr10⟩, ⟨v11, h11, hr11⟩, ⟨m12, h12, hr12⟩, ⟨v13, h13, hr13⟩⟩
      exact ⟨⟨c1, c2, v3, v4, v5, v6, v7, v8, v9, v10, v11, m12, v13⟩,
        (mkEffectConfig_ok_iff i _).mpr
          ⟨h1, h2, ⟨h3, hr3⟩, ⟨h4, hr4⟩, ⟨h5, hr5⟩, ⟨h6, hr6⟩, ⟨h7, hr7⟩,
           ⟨h8, hr8⟩, ⟨h9, hr9⟩, ⟨h10, hr10⟩, ⟨h11, hr11⟩, ⟨h12, hr12⟩,
           ⟨h13, hr13⟩⟩⟩
  · intro cfg hok
    obtain ⟨h1, h2, h3, h4, h5, h6, h7, h8, h9, h10, h11, h12, h13⟩ :=
      (mkEffectConfig_ok_iff i cfg).mp hok
    exact ⟨⟨h1, h2, h3.1, h4.1, h5.1, h6.1, h7.1, h8.1, h9.1, h10.1, h11.1,
        h12.1, h13.1⟩,
      h3.2, h4.2, h5.2, h6.2, h7.2, h8.2, h9.2, h10.2, h11.2, h12.2, h13.2⟩

/-- Witness for C6: a fully present, in-range input constructs
successfully. -/
theorem effectConfig_validation_witness :
    ∃ cfg, mkEffectConfig
        ⟨some (1, 1, 1), some (0, 0, 0), some 0, some (1/2), some (1/2), some 0,
         some 0, some 0, some 0, some 0, some 0, some 1, some (1/2)⟩ = .ok cfg :=
  (effectConfig_validation
      ⟨some (1, 1, 1), some (0, 0, 0), some 0, some (1/2), some (1/2), some 0,
       some 0, some 0, some 0, some 0, some 0, some 1, some (1/2)⟩).1.mpr
    ⟨⟨(1, 1, 1), rfl⟩, ⟨(0, 0, 0), rfl⟩, ⟨0, rfl, le_refl 0, by norm_num⟩,
     ⟨1/2, rfl, by norm_num, by norm_num⟩, ⟨1/2, rfl, by norm_num, by norm_num⟩,
     ⟨0, rfl, le_refl 0, by norm_num⟩, ⟨0, rfl, le_refl 0, by norm_num⟩,
     ⟨0, rfl, le_refl 0, by norm_num⟩, ⟨0, rfl, le_refl 0, by norm_num⟩,
     ⟨0, rfl, le_refl 0, by norm_num⟩, ⟨0, rfl, le_refl 0, by norm_num⟩,
     ⟨1, rfl, by norm_num⟩, ⟨1/2, rfl, by norm_num, by norm_num⟩⟩

end CRT
